import Mathlib

set_option maxRecDepth 100000

/-!
Shallow embedding of the ONEPAGER backend (src/backend/server.py): the
`LandingPageData`/`ComponentData` data model, the pure HTML renderer
`generate_html_export`, and the MongoDB-backed route handlers for page
update/delete, component add/update/remove, export, FTP upload and email.
Python dynamic values are modelled by `PyVal`; Python exceptions by `PyExc`;
`datetime.utcnow()` is passed in explicitly as a `Nat` timestamp parameter.
-/

namespace OnePager

/-- A Python runtime value as stored in the open `content` / `style` /
`settings` mappings.  Python floats are restricted to integral values (the
only ones the development evaluates); `str()` of such a float prints the
integer part followed by `.0`. -/
inductive PyVal where
  | vstr (s : String)
  | vint (n : Int)
  | vfloat (n : Int)
  | vbool (b : Bool)
  | vnone
deriving DecidableEq

/-- Python `str()` of a float with integral value, e.g. `str(10.0) = "10.0"`. -/
def pyFloatStr (n : Int) : String := toString n ++ ".0"

/-- Python `str()` applied to a `PyVal` (used by f-string interpolation). -/
def pyStr : PyVal → String
  | .vstr s => s
  | .vint n => toString n
  | .vfloat n => pyFloatStr n
  | .vbool true => "True"
  | .vbool false => "False"
  | .vnone => "None"

/-- Python truthiness of a `PyVal`. -/
def pyTruthy : PyVal → Bool
  | .vstr s => !s.isEmpty
  | .vint n => n != 0
  | .vfloat n => n != 0
  | .vbool b => b
  | .vnone => false

/-- Python type name of a `PyVal` (used in `AttributeError` messages). -/
def pyTypeName : PyVal → String
  | .vstr _ => "str"
  | .vint _ => "int"
  | .vfloat _ => "float"
  | .vbool _ => "bool"
  | .vnone => "NoneType"

/-- A Python `Dict[str, Any]` as a key-ordered association list. -/
abbrev PyDict := List (String × PyVal)

/-- Python `d.get(key)`: `None` (here `Option.none`) when the key is absent. -/
def pyGet : PyDict → String → Option PyVal
  | [], _ => none
  | (k, v) :: rest, key => if k == key then some v else pyGet rest key

/-- Python `d.get(key, default)`. -/
def pyGetD (d : PyDict) (key : String) (dflt : PyVal) : PyVal :=
  (pyGet d key).getD dflt

/-- Truthiness of `d.get(key)` (absent key gives falsy `None`). -/
def pyTruthyOpt : Option PyVal → Bool
  | none => false
  | some v => pyTruthy v

/-- A Python `Dict[str, float]` (the `position` field), float values integral. -/
abbrev PosDict := List (String × Int)

/-- Python `d[key]` on a `Dict[str, float]`: `none` models a `KeyError`. -/
def posGet : PosDict → String → Option Int
  | [], _ => none
  | (k, v) :: rest, key => if k == key then some v else posGet rest key

/-- A raised Python exception, as observed by the route handlers. -/
inductive PyExc where
  | keyError (k : String)
  | attributeError (msg : String)
  | typeError (msg : String)
  | httpException (status : Nat) (detail : String)
  | other (msg : String)
deriving DecidableEq

/-- Python `str(e)` of an exception: `str(KeyError(k))` quotes the key;
`str` of a Starlette `HTTPException` is `"{status_code}: {detail}"`. -/
def pyExcStr : PyExc → String
  | .keyError k => "\x27" ++ k ++ "\x27"
  | .attributeError m => m
  | .typeError m => m
  | .httpException s d => toString s ++ ": " ++ d
  | .other m => m

/-- `ComponentData` (server.py lines 40-45). -/
structure ComponentData where
  id : String
  type : String
  content : PyDict
  position : PosDict
  style : PyDict
deriving DecidableEq

/-- `LandingPageData` (server.py lines 47-56); timestamps as `Nat`. -/
structure LandingPageData where
  id : String
  title : String
  background_image : Option String := none
  background_color : String := "#000000"
  theme : String := "dark"
  components : List ComponentData := []
  settings : PyDict := []
  created_at : Nat := 0
  updated_at : Nat := 0
deriving DecidableEq

/-- Does a string start with the given pattern (on character lists)? -/
def chStarts : List Char → List Char → Bool
  | [], _ => true
  | _ :: _, [] => false
  | a :: as, b :: bs => a == b && chStarts as bs

/-- Does the character list contain the pattern as a contiguous substring? -/
def chContains (pat : List Char) : List Char → Bool
  | [] => pat.isEmpty
  | b :: bs => chStarts pat (b :: bs) || chContains pat bs

/-- `s` starts with `pat`. -/
def strStarts (s pat : String) : Bool := chStarts pat.data s.data

/-- `s` contains `pat` as a contiguous substring. -/
def strContains (s pat : String) : Bool := chContains pat.data s.data

/-- Python `s.replace(old, new)` on character lists, for a non-empty `old`:
each non-overlapping occurrence of `old` is replaced by `new`, scanning left
to right.  The `fuel` argument only bounds the recursion structurally; with
`fuel ≥ s.length` (as `pyReplace` supplies) it never runs out, since each
step consumes at least one character. -/
def pyReplaceGo (old new : List Char) : Nat → List Char → List Char
  | _, [] => []
  | 0, s => s
  | fuel + 1, ch :: cs =>
    if chStarts old (ch :: cs) && !old.isEmpty then
      new ++ pyReplaceGo old new fuel (List.drop (old.length - 1) cs)
    else
      ch :: pyReplaceGo old new fuel cs

/-- Python `s.replace(old, new)` for a non-empty pattern `old`. -/
def pyReplace (s old new : String) : String :=
  String.mk (pyReplaceGo old.data new.data s.data.length s.data)

/-- Python `str.title()` (ASCII): a letter following a non-letter is
uppercased, a letter following a letter is lowercased. -/
def pyTitleGo : Bool → List Char → List Char
  | _, [] => []
  | prev, ch :: cs =>
    (if ch.isAlpha then (if prev then ch.toLower else ch.toUpper) else ch)
      :: pyTitleGo ch.isAlpha cs

/-- Python `s.title()`. -/
def pyTitle (s : String) : String := String.mk (pyTitleGo false s.data)

/-!  The f-string templates of `generate_html_export` (server.py lines
418-593), split at their interpolation holes; every literal character,
including indentation, trailing spaces and newlines, is reproduced from the
source. -/

def component_style_str (x y : Int) (c : ComponentData) : String :=
  "\n            position: absolute; \n            left: "
    ++ (pyFloatStr x)
    ++ "px; \n            top: "
    ++ (pyFloatStr y)
    ++ "px;\n            background: "
    ++ (pyStr (pyGetD c.style "background" (PyVal.vstr "rgba(192,192,192,0.1)")))
    ++ ";\n            color: "
    ++ (pyStr (pyGetD c.style "color" (PyVal.vstr "#ffffff")))
    ++ ";\n            border-radius: "
    ++ (pyStr (pyGetD c.style "borderRadius" (PyVal.vstr "12px")))
    ++ ";\n            backdrop-filter: blur(12px);\n            border: 1px solid rgba(192,192,192,0.2);\n            font-family: "
    ++ (pyStr (pyGetD c.content "fontFamily" (PyVal.vstr "Inter")))
    ++ ";\n            text-transform: "
    ++ (if pyTruthyOpt (pyGet c.content "allCaps") then "uppercase" else "none")
    ++ ";\n        "

def text_fragment (cs : String) (c : ComponentData) : String :=
  "\n            <"
    ++ (pyStr (pyGetD c.content "tag" (PyVal.vstr "p")))
    ++ " style=\""
    ++ (cs)
    ++ " font-size: "
    ++ (pyStr (pyGetD c.style "fontSize" (PyVal.vstr "16")))
    ++ "px; padding: 12px;\">\n                "
    ++ (pyStr (pyGetD c.content "text" (PyVal.vstr "")))
    ++ "\n            </"
    ++ (pyStr (pyGetD c.content "tag" (PyVal.vstr "p")))
    ++ ">"

def button_fragment (cs : String) (c : ComponentData) : String :=
  "\n            <button style=\""
    ++ (cs)
    ++ " padding: 12px 24px; cursor: pointer; font-size: 14px; font-weight: 500;\"\n                    onclick=\""
    ++ (pyStr (pyGetD c.content "action" (PyVal.vstr "")))
    ++ "\"\n                    onmouseover=\"this.style.transform=\x27translateY(-2px)\x27; this.style.boxShadow=\x270 10px 25px rgba(0,0,0,0.2)\x27;\"\n                    onmouseout=\"this.style.transform=\x27translateY(0)\x27; this.style.boxShadow=\x27none\x27;\">\n                "
    ++ (pyStr (pyGetD c.content "text" (PyVal.vstr "Button")))
    ++ "\n            </button>"

def chatbot_fragment (cs : String) (c : ComponentData) : String :=
  "\n            <div style=\""
    ++ (cs)
    ++ " width: 300px; height: 400px; padding: 16px; display: flex; flex-direction: column;\">\n                <div style=\"display: flex; align-items: center; gap: 8px; margin-bottom: 16px; padding-bottom: 8px; border-bottom: 1px solid rgba(255,255,255,0.1); font-weight: 600; color: #60a5fa;\">\n                    <span>💬</span>\n                    <span>ElevenLabs AI</span>\n                </div>\n                <div style=\"flex: 1; display: flex; flex-direction: column; justify-content: space-between;\">\n                    <p style=\"font-size: 14px; color: rgba(255,255,255,0.8); margin-bottom: 16px;\">"
    ++ (pyStr (pyGetD c.content "greeting" (PyVal.vstr "Hello! How can I help you today?")))
    ++ "</p>\n                    <div style=\"display: flex; gap: 8px;\">\n                        <input style=\"flex: 1; padding: 8px; background: rgba(255,255,255,0.1); border: 1px solid rgba(255,255,255,0.2); border-radius: 8px; color: #ffffff;\" placeholder=\""
    ++ (pyStr (pyGetD c.content "placeholder" (PyVal.vstr "Ask me anything...")))
    ++ "\" />\n                        <button style=\"padding: 8px; background: linear-gradient(135deg, #60a5fa 0%, #3b82f6 100%); border: none; border-radius: 8px; color: #ffffff; cursor: pointer;\">⚡</button>\n                    </div>\n                </div>\n            </div>"

def livechat_fragment (cs pn : String) : String :=
  "\n            <div style=\""
    ++ (cs)
    ++ " width: 280px; height: 350px; padding: 16px; display: flex; flex-direction: column;\">\n                <div style=\"display: flex; align-items: center; gap: 8px; margin-bottom: 16px; padding-bottom: 8px; border-bottom: 1px solid rgba(255,255,255,0.1); font-weight: 600; color: #60a5fa;\">\n                    <span>🤖</span>\n                    <span>"
    ++ (pn)
    ++ " Chat</span>\n                </div>\n                <div style=\"flex: 1; display: flex; flex-direction: column; justify-content: space-between;\">\n                    <div style=\"background: rgba(192,192,192,0.15); padding: 12px; border-radius: 12px; font-size: 14px; color: rgba(255,255,255,0.9); margin-bottom: 8px;\">\n                        Hi! How can we help you today?\n                    </div>\n                    <div style=\"display: flex; gap: 8px;\">\n                        <input style=\"flex: 1; padding: 8px; background: rgba(255,255,255,0.1); border: 1px solid rgba(255,255,255,0.2); border-radius: 8px; color: #ffffff;\" placeholder=\"Type your message...\" />\n                        <button style=\"padding: 8px 16px; background: rgba(192,192,192,0.2); border: 1px solid rgba(192,192,192,0.3); border-radius: 8px; color: #ffffff; cursor: pointer;\">Send</button>\n                    </div>\n                </div>\n            </div>"

def html_template (p : LandingPageData) (components_html : String) : String :=
  "\n    <!DOCTYPE html>\n    <html lang=\"en\">\n    <head>\n        <meta charset=\"UTF-8\">\n        <meta name=\"viewport\" content=\"width=device-width, initial-scale=1.0\">\n        <title>"
    ++ (p.title)
    ++ "</title>\n        <link href=\"https://fonts.googleapis.com/css2?family=Inter:wght@300;400;500;600;700&display=swap\" rel=\"stylesheet\">\n        <style>\n            * \x7b\n                margin: 0;\n                padding: 0;\n                box-sizing: border-box;\n            \x7d\n            \n            body \x7b\n                font-family: \x27Inter\x27, -apple-system, BlinkMacSystemFont, sans-serif;\n                background: linear-gradient(135deg, "
    ++ (p.background_color)
    ++ " 0%, #000000 100%);\n                background-image: url(\x27"
    ++ (p.background_image.getD "")
    ++ "\x27);\n                background-size: cover;\n                background-position: center;\n                background-attachment: fixed;\n                min-height: 100vh;\n                position: relative;\n                overflow-x: hidden;\n            \x7d\n            \n            .container \x7b\n                position: relative;\n                width: 100%;\n                height: 100vh;\n            \x7d\n            \n            .glass-button \x7b\n                transition: all 0.3s ease;\n                font-weight: 500;\n                text-decoration: none;\n                display: inline-block;\n            \x7d\n            \n            .glass-button:hover \x7b\n                transform: translateY(-2px);\n                box-shadow: 0 10px 20px rgba(0,0,0,0.2);\n                background: rgba(192,192,192,0.2) !important;\n            \x7d\n            \n            .component \x7b\n                backdrop-filter: blur(12px);\n                -webkit-backdrop-filter: blur(12px);\n                transition: all 0.3s ease;\n            \x7d\n            \n            .component:hover \x7b\n                transform: scale(1.02);\n            \x7d\n            \n            .apexone-logo \x7b\n                position: absolute;\n                top: 20px;\n                right: 20px;\n                z-index: 1;\n            \x7d\n            \n            .logo-watermark \x7b\n                width: 80px;\n                height: auto;\n                opacity: 0.3;\n            \x7d\n            \n            @media (max-width: 768px) \x7b\n                .component \x7b\n                    position: relative !important;\n                    left: 0 !important;\n                    top: auto !important;\n                    margin: 20px auto;\n                    text-align: center;\n                \x7d\n            \x7d\n        </style>\n    </head>\n    <body>\n        <div class=\"container\">\n            <div class=\"apexone-logo\">\n                <img src=\"https://customer-assets.emergentagent.com/job_minimalcraft/artifacts/0zqivsrz_APEXONE_OFFICIAL_LOGOPNG.png\" alt=\"APEXONE\" class=\"logo-watermark\">\n            </div>\n            "
    ++ (components_html)
    ++ "\n        </div>\n        <script>\n            // Add smooth interactions\n            document.querySelectorAll(\x27.component\x27).forEach(el => \x7b\n                el.addEventListener(\x27mouseenter\x27, () => \x7b\n                    el.style.transform = \x27scale(1.05)\x27;\n                \x7d);\n                el.addEventListener(\x27mouseleave\x27, () => \x7b\n                    el.style.transform = \x27scale(1)\x27;\n                \x7d);\n            \x7d);\n        </script>\n    </body>\n    </html>\n    "


/-- `provider_name` of the `livechat` branch (server.py line 473):
`content.get(\x27provider\x27, \x27tidio\x27).title()`; calling `.title()` on a
non-string value raises an `AttributeError`. -/
def providerName (c : ComponentData) : Except PyExc String :=
  match pyGetD c.content "provider" (PyVal.vstr "tidio") with
  | .vstr s => .ok (pyTitle s)
  | v => .error (.attributeError
      ("\x27" ++ pyTypeName v ++ "\x27 object has no attribute \x27title\x27"))

/-- One iteration of the rendering loop (server.py lines 422-489): the
`component_style` f-string forces `position[\x27x\x27]` and `position[\x27y\x27]`
(no default, `KeyError` when absent), then the component `type` selects a
fragment template; unmatched types add nothing. -/
def renderComponent (c : ComponentData) : Except PyExc String :=
  match posGet c.position "x" with
  | none => .error (.keyError "x")
  | some x =>
    match posGet c.position "y" with
    | none => .error (.keyError "y")
    | some y =>
      let cs := component_style_str x y c
      if c.type == "text" then .ok (text_fragment cs c)
      else if c.type == "button" then .ok (button_fragment cs c)
      else if c.type == "chatbot" then .ok (chatbot_fragment cs c)
      else if c.type == "livechat" then
        match providerName c with
        | .error e => .error e
        | .ok pn => .ok (livechat_fragment cs pn)
      else .ok ""

/-- The accumulation loop `components_html += ...` over `page_data.components`
(server.py lines 420-489); a raised exception aborts the loop. -/
def componentsHtmlGo (acc : String) : List ComponentData → Except PyExc String
  | [] => .ok acc
  | c :: cs =>
    match renderComponent c with
    | .error e => .error e
    | .ok frag => componentsHtmlGo (acc ++ frag) cs

/-- `generate_html_export` (server.py lines 418-593): run the component loop,
then interpolate the resulting `components_html` into the page template. -/
def generate_html_export (page_data : LandingPageData) : Except PyExc String :=
  match componentsHtmlGo "" page_data.components with
  | .error e => .error e
  | .ok components_html => .ok (html_template page_data components_html)

/-!  The document store (the `landing_pages` MongoDB collection) is modelled
as a list of page documents; `find_one`/`update_one`/`delete_one` act on the
first document matching the filter. -/

/-- `db.landing_pages.find_one(\x7b"id": page_id\x7d)`. -/
def findOne : List LandingPageData → String → Option LandingPageData
  | [], _ => none
  | d :: ds, pid => if d.id == pid then some d else findOne ds pid

/-- `db.landing_pages.update_one(filter, update)`: apply `f` to the first
document satisfying `pred`; no-op when nothing matches. -/
def updateOne : List LandingPageData → (LandingPageData → Bool) →
    (LandingPageData → LandingPageData) → List LandingPageData
  | [], _, _ => []
  | d :: ds, pred, f =>
    if pred d then f d :: ds else d :: updateOne ds pred f

/-- `db.landing_pages.delete_one(\x7b"id": page_id\x7d)`: remove the first
match, returning the new collection and the `deleted_count`. -/
def deleteOne : List LandingPageData → String → List LandingPageData × Nat
  | [], _ => ([], 0)
  | d :: ds, pid =>
    if d.id == pid then (ds, 1)
    else
      let r := deleteOne ds pid
      (d :: r.1, r.2)

/-- The client body of `PUT /pages/\x7bpage_id\x7d`: an arbitrary partial field
set (`page_data: Dict[str, Any]`), restricted to the schema keys; `some`
means the client supplied the field. -/
structure PageUpdate where
  id : Option String := none
  title : Option String := none
  background_image : Option (Option String) := none
  background_color : Option String := none
  theme : Option String := none
  components : Option (List ComponentData) := none
  settings : Option PyDict := none
  created_at : Option Nat := none
  updated_at : Option Nat := none
deriving DecidableEq

/-- MongoDB `$set` of the supplied fields onto a stored document. -/
def applySet (d : LandingPageData) (u : PageUpdate) : LandingPageData :=
  { id := u.id.getD d.id
    title := u.title.getD d.title
    background_image := u.background_image.getD d.background_image
    background_color := u.background_color.getD d.background_color
    theme := u.theme.getD d.theme
    components := u.components.getD d.components
    settings := u.settings.getD d.settings
    created_at := u.created_at.getD d.created_at
    updated_at := u.updated_at.getD d.updated_at }

/-- `update_landing_page` (server.py lines 131-142): overwrite
`page_data["updated_at"]` with `utcnow()`, `$set` the fields on the matching
document, then re-read; 404 when the re-read finds nothing. -/
def update_landing_page (store : List LandingPageData) (page_id : String)
    (page_data : PageUpdate) (now : Nat) :
    List LandingPageData × Except PyExc LandingPageData :=
  let pd := { page_data with updated_at := some now }
  let store1 := updateOne store (fun d => d.id == page_id) (fun d => applySet d pd)
  match findOne store1 page_id with
  | none => (store1, .error (.httpException 404 "Landing page not found"))
  | some p => (store1, .ok p)

/-- `delete_landing_page` (server.py lines 144-150). -/
def delete_landing_page (store : List LandingPageData) (page_id : String) :
    List LandingPageData × Except PyExc String :=
  let r := deleteOne store page_id
  if r.2 == 0 then (r.1, .error (.httpException 404 "Landing page not found"))
  else (r.1, .ok "Landing page deleted successfully")

/-- The `$push`/`$set` update document of `add_component` (server.py line 157). -/
def addTransform (c : ComponentData) (now : Nat) (d : LandingPageData) :
    LandingPageData :=
  { d with components := d.components ++ [c], updated_at := now }

/-- `add_component` (server.py lines 152-159): `$push` the component and
refresh `updated_at` on the matching page; the success message is returned
whether or not any document matched. -/
def add_component (store : List LandingPageData) (page_id : String)
    (component : ComponentData) (now : Nat) :
    List LandingPageData × Except PyExc String :=
  (updateOne store (fun d => d.id == page_id) (addTransform component now),
   .ok "Component added successfully")

/-- MongoDB positional `components.$` replacement: the first array element
with the matched id is replaced by the new component body. -/
def replaceFirst : List ComponentData → String → ComponentData →
    List ComponentData
  | [], _, _ => []
  | k :: ks, cid, c =>
    if k.id == cid then c :: ks else k :: replaceFirst ks cid c

/-- The `$set` update document of `update_component` (server.py line 166). -/
def updTransform (cid : String) (c : ComponentData) (now : Nat)
    (d : LandingPageData) : LandingPageData :=
  { d with components := replaceFirst d.components cid c, updated_at := now }

/-- `update_component` (server.py lines 161-168): filter
`\x7b"id": page_id, "components.id": component_id\x7d`; the success message is
returned whether or not any document matched. -/
def update_component (store : List LandingPageData) (page_id component_id : String)
    (component : ComponentData) (now : Nat) :
    List LandingPageData × Except PyExc String :=
  (updateOne store
     (fun d => d.id == page_id && d.components.any (fun k => k.id == component_id))
     (updTransform component_id component now),
   .ok "Component updated successfully")

/-- The `$pull`/`$set` update document of `delete_component` (server.py line
175): `$pull` removes every array element whose id matches. -/
def pullTransform (cid : String) (now : Nat) (d : LandingPageData) :
    LandingPageData :=
  { d with components := d.components.filter (fun k => !(k.id == cid)),
           updated_at := now }

/-- `delete_component` (server.py lines 170-177): the success message is
returned whether or not any document matched. -/
def delete_component (store : List LandingPageData) (page_id component_id : String)
    (now : Nat) : List LandingPageData × Except PyExc String :=
  (updateOne store (fun d => d.id == page_id) (pullTransform component_id now),
   .ok "Component deleted successfully")

/-- The download filename of `export_landing_page` (server.py line 312):
`f"\x7bpage_data.title.replace(\x27 \x27, \x27_\x27)\x7d.html"`. -/
def export_filename (title : String) : String :=
  pyReplace title " " "_" ++ ".html"

/-- The uploaded filename of `ftp_upload_page` (server.py line 364), the same
expression as the export filename. -/
def ftp_filename (title : String) : String :=
  pyReplace title " " "_" ++ ".html"

/-- The `FileResponse` produced by `export_landing_page`. -/
structure ExportResponse where
  content : String
  media_type : String
  filename : String
deriving DecidableEq

/-- `export_landing_page` (server.py lines 292-313): 404 when the page is
absent; otherwise render and return the HTML as a named file download (an
exception escaping the renderer propagates). -/
def export_landing_page (store : List LandingPageData) (page_id : String) :
    Except PyExc ExportResponse :=
  match findOne store page_id with
  | none => .error (.httpException 404 "Landing page not found")
  | some page =>
    match generate_html_export page with
    | .error e => .error e
    | .ok html =>
      .ok { content := html, media_type := "text/html"
            filename := export_filename page.title }

/-- `FTPUploadRequest` (server.py lines 63-68). -/
structure FTPUploadRequest where
  page_id : String
  ftp_host : String
  ftp_username : String
  ftp_password : String
  remote_path : String := "/"
deriving DecidableEq

/-- The success body of `ftp_upload_page`. -/
structure FtpResult where
  message : String
  filename : String
  public_url : String
  ftp_path : String
deriving DecidableEq

/-- The `try` body of `ftp_upload_page` (server.py lines 348-376).  The FTP
connection/login/cwd/storbinary calls are external transport, modelled by the
oracle `ftpExc`: `some msg` means one of them raised with message `msg`. -/
def ftp_upload_body (store : List LandingPageData) (page_id : String)
    (ftp_data : FTPUploadRequest) (ftpExc : Option String) :
    Except PyExc FtpResult :=
  match findOne store page_id with
  | none => .error (.httpException 404 "Landing page not found")
  | some page =>
    match generate_html_export page with
    | .error e => .error e
    | .ok _html =>
      match ftpExc with
      | some m => .error (.other m)
      | none =>
        let filename := ftp_filename page.title
        .ok { message := "Page uploaded successfully!"
              filename := filename
              public_url := "http://" ++ pyReplace ftp_data.ftp_host "ftp." "" ++ "/" ++ filename
              ftp_path := ftp_data.ftp_host ++ "/" ++ ftp_data.remote_path ++ "/" ++ filename }

/-- `ftp_upload_page` (server.py lines 345-379): `except Exception as e`
catches every exception of the body -- including the 404 `HTTPException` for
a missing page -- and re-raises it as a 500 with the stringified exception
appended to "FTP upload failed: ". -/
def ftp_upload_page (store : List LandingPageData) (page_id : String)
    (ftp_data : FTPUploadRequest) (ftpExc : Option String) :
    Except PyExc FtpResult :=
  match ftp_upload_body store page_id ftp_data ftpExc with
  | .error e => .error (.httpException 500 ("FTP upload failed: " ++ pyExcStr e))
  | .ok r => .ok r

/-- `EmailRequest` (server.py lines 70-75). -/
structure EmailRequest where
  page_id : String
  to_email : String
  subject : String
  message : String
  format : String := "html"
deriving DecidableEq

/-- The success body of `email_landing_page`. -/
structure EmailResult where
  message : String
  subject : String
  format : String
  attachment : String
  preview : String
deriving DecidableEq

/-- The iframe snippet of the email `else` branch (server.py lines 398-400);
`frontend_url` models `os.environ.get("FRONTEND_URL", "http://localhost:3000")`. -/
def iframe_snippet (frontend_url page_id : String) : String :=
  "<iframe src=\"" ++ frontend_url ++ "/preview/" ++ page_id
    ++ "\" \n                             width=\"100%\" height=\"600\" frameborder=\"0\" scrolling=\"auto\">\n                          </iframe>"

/-- The `try` body of `email_landing_page` (server.py lines 384-413).  The
`json` branch calls `json.dumps(page_data.dict(), indent=2)` on a dict whose
`created_at`/`updated_at` values are `datetime` objects, which `json.dumps`
rejects with a `TypeError`. -/
def email_body (store : List LandingPageData) (page_id : String)
    (email_data : EmailRequest) (frontend_url : String) :
    Except PyExc EmailResult :=
  match findOne store page_id with
  | none => .error (.httpException 404 "Landing page not found")
  | some page =>
    let ca : Except PyExc (String × String) :=
      if email_data.format == "html" then
        match generate_html_export page with
        | .error e => .error e
        | .ok c => .ok (c, pyReplace page.title " " "_" ++ ".html")
      else if email_data.format == "json" then
        .error (.typeError "Object of type datetime is not JSON serializable")
      else
        .ok (iframe_snippet frontend_url page_id,
             pyReplace page.title " " "_" ++ "_embed.txt")
    match ca with
    | .error e => .error e
    | .ok (content, attachment_name) =>
      .ok { message := "Email sent successfully to " ++ email_data.to_email
            subject := email_data.subject
            format := email_data.format
            attachment := attachment_name
            preview := if content.length > 200 then content.take 200 ++ "..." else content }

/-- `email_landing_page` (server.py lines 381-416): `except Exception as e`
catches every exception of the body -- including the 404 `HTTPException` for
a missing page -- and re-raises it as a 500 with the stringified exception
appended to "Email sending failed: ". -/
def email_landing_page (store : List LandingPageData) (page_id : String)
    (email_data : EmailRequest) (frontend_url : String) :
    Except PyExc EmailResult :=
  match email_body store page_id email_data frontend_url with
  | .error e => .error (.httpException 500 ("Email sending failed: " ++ pyExcStr e))
  | .ok r => .ok r


/-!  Helper lemmas shared by the claim theorems. -/

theorem str_data_append (a b : String) : (a ++ b).data = a.data ++ b.data := rfl

theorem str_append_empty (a : String) : a ++ "" = a := by
  show String.mk (a.data ++ []) = a
  rw [List.append_nil]

theorem chStarts_append (pat a b : List Char) (h : chStarts pat a = true) :
    chStarts pat (a ++ b) = true := by
  induction pat generalizing a with
  | nil => rfl
  | cons p ps ih =>
    cases a with
    | nil => simp [chStarts] at h
    | cons x xs =>
      simp only [chStarts, List.cons_append, Bool.and_eq_true] at h ⊢
      exact ⟨h.1, ih xs h.2⟩

theorem strStarts_append_left (a b pat : String) (h : strStarts a pat = true) :
    strStarts (a ++ b) pat = true := by
  unfold strStarts at h ⊢
  rw [str_data_append]
  exact chStarts_append _ _ _ h

theorem findOne_none_updateOne (store : List LandingPageData) (pid : String)
    (pred : LandingPageData → Bool) (f : LandingPageData → LandingPageData)
    (hpred : ∀ d, pred d = true → d.id = pid)
    (h : findOne store pid = none) : updateOne store pred f = store := by
  induction store with
  | nil => rfl
  | cons d ds ih =>
    unfold findOne at h
    unfold updateOne
    by_cases hd : d.id = pid
    · simp [hd] at h
    · have hpd : pred d = false := by
        cases hpd : pred d with
        | false => rfl
        | true => exact absurd (hpred d hpd) hd
      simp only [hd, beq_iff_eq, if_neg hd] at h
      simp [hpd, ih h]

theorem deleteOne_of_findOne_none (store : List LandingPageData) (pid : String)
    (h : findOne store pid = none) : deleteOne store pid = (store, 0) := by
  induction store with
  | nil => rfl
  | cons d ds ih =>
    unfold findOne at h
    unfold deleteOne
    by_cases hd : d.id = pid
    · simp [hd] at h
    · simp only [beq_iff_eq, if_neg hd] at h ⊢
      simp [ih h]

theorem findOne_updateOne (store : List LandingPageData) (pid : String)
    (p : LandingPageData) (pred : LandingPageData → Bool)
    (f : LandingPageData → LandingPageData)
    (hfind : findOne store pid = some p) (hp : pred p = true)
    (hpred : ∀ d, pred d = true → d.id = pid)
    (hid : (f p).id = p.id) :
    findOne (updateOne store pred f) pid = some (f p) := by
  induction store with
  | nil => simp [findOne] at hfind
  | cons d ds ih =>
    unfold findOne at hfind
    unfold updateOne
    by_cases hd : d.id = pid
    · simp only [beq_iff_eq, if_pos hd, Option.some.injEq] at hfind
      subst hfind
      rw [if_pos hp]
      unfold findOne
      rw [if_pos (by rw [hid]; exact beq_iff_eq.mpr hd)]
    · have hpd : pred d = false := by
        cases hpd : pred d with
        | false => rfl
        | true => exact absurd (hpred d hpd) hd
      simp only [beq_iff_eq, if_neg hd] at hfind
      rw [if_neg (by simp [hpd])]
      unfold findOne
      rw [if_neg (by simp [hd])]
      exact ih hfind

theorem updateOne_map_id (store : List LandingPageData)
    (pred : LandingPageData → Bool) (f : LandingPageData → LandingPageData)
    (hf : ∀ d, (f d).id = d.id) :
    (updateOne store pred f).map (fun d => d.id) = store.map (fun d => d.id) := by
  induction store with
  | nil => rfl
  | cons d ds ih =>
    unfold updateOne
    by_cases hd : pred d
    · simp [hd, hf]
    · simp [hd, ih]

theorem componentsHtmlGo_skip (c : ComponentData)
    (hc : renderComponent c = .ok "") (l1 l2 : List ComponentData) :
    ∀ acc, componentsHtmlGo acc (l1 ++ c :: l2) = componentsHtmlGo acc (l1 ++ l2) := by
  induction l1 with
  | nil =>
    intro acc
    simp only [List.nil_append]
    have step : componentsHtmlGo acc (c :: l2) = componentsHtmlGo (acc ++ "") l2 := by
      simp only [componentsHtmlGo]
      rw [hc]
    rw [step, str_append_empty]
  | cons d ds ih =>
    intro acc
    simp only [List.cons_append, componentsHtmlGo]
    cases renderComponent d with
    | error e => rfl
    | ok frag => exact ih (acc ++ frag)

/-- The component accesses that can raise inside the rendering loop:
`position` must contain both `x` and `y` (server.py lines 428-429). -/
def posOk (c : ComponentData) : Bool :=
  (posGet c.position "x").isSome && (posGet c.position "y").isSome

/-- ... and a `livechat` component must carry a string `provider` (or none at
all), since `.title()` is called on it (server.py line 473). -/
def provOk (c : ComponentData) : Bool :=
  c.type != "livechat" ||
    (match pyGetD c.content "provider" (PyVal.vstr "tidio") with
     | .vstr _ => true
     | _ => false)

theorem renderComponent_ok (c : ComponentData)
    (h1 : posOk c = true) (h2 : provOk c = true) :
    ∃ s, renderComponent c = .ok s := by
  unfold posOk at h1
  simp only [Bool.and_eq_true, Option.isSome_iff_exists] at h1
  obtain ⟨⟨x, hx⟩, ⟨y, hy⟩⟩ := h1
  unfold renderComponent
  rw [hx, hy]
  by_cases ht : c.type = "text"
  · exact ⟨text_fragment (component_style_str x y c) c, by simp [ht]⟩
  · by_cases hb : c.type = "button"
    · exact ⟨button_fragment (component_style_str x y c) c, by simp [ht, hb]⟩
    · by_cases hc : c.type = "chatbot"
      · exact ⟨chatbot_fragment (component_style_str x y c) c, by simp [ht, hb, hc]⟩
      · by_cases hl : c.type = "livechat"
        · unfold provOk at h2
          simp only [hl, bne_self_eq_false, Bool.false_or] at h2
          unfold providerName
          cases hv : pyGetD c.content "provider" (PyVal.vstr "tidio") with
          | vstr s =>
            exact ⟨livechat_fragment (component_style_str x y c) (pyTitle s),
              by simp [ht, hb, hc, hl, providerName, hv]⟩
          | vint n => rw [hv] at h2; simp at h2
          | vfloat n => rw [hv] at h2; simp at h2
          | vbool b => rw [hv] at h2; simp at h2
          | vnone => rw [hv] at h2; simp at h2
        · exact ⟨"", by simp [ht, hb, hc, hl]⟩

theorem componentsHtmlGo_ok (l : List ComponentData)
    (h : ∀ c ∈ l, posOk c = true ∧ provOk c = true) :
    ∀ acc, ∃ s, componentsHtmlGo acc l = .ok s := by
  induction l with
  | nil => exact fun acc => ⟨acc, rfl⟩
  | cons c cs ih =>
    intro acc
    obtain ⟨frag, hfrag⟩ :=
      renderComponent_ok c (h c (List.mem_cons_self c cs)).1 (h c (List.mem_cons_self c cs)).2
    unfold componentsHtmlGo
    rw [hfrag]
    exact ih (fun d hd => h d (List.mem_cons_of_mem c hd)) (acc ++ frag)


/-!  Concrete sample data for witnesses and counterexamples. -/

/-- A page with no components. -/
def demoPage0 : LandingPageData :=
  { id := "p0", title := "Demo", background_color := "#1a1a2e" }

/-- The successful rendering of a page (empty string on a raised exception). -/
def renderOut (p : LandingPageData) : String :=
  match generate_html_export p with
  | .ok s => s
  | .error _ => ""

/-- C3: the renderer is a pure deterministic function of the `Page` value:
the embedding takes no clock, store or other ambient parameter, so equal
inputs (including equal component order) give byte-for-byte equal output. -/
theorem C3_renderer_deterministic (p q : LandingPageData) (h : p = q) :
    generate_html_export p = generate_html_export q := by rw [h]

theorem C3_renderer_deterministic_witness :
    generate_html_export demoPage0 = generate_html_export demoPage0 :=
  C3_renderer_deterministic demoPage0 demoPage0 rfl

/-- C9 counterexample: the claim says the first characters of the output are
the DOCTYPE declaration, but the template literal opens with a newline and
four spaces of indentation, so the rendering of `demoPage0` does not start
with `<!DOCTYPE`. -/
theorem C9_counterexample :
    generate_html_export demoPage0 = .ok (renderOut demoPage0) ∧
    strStarts (renderOut demoPage0) "<!DOCTYPE" = false :=
  ⟨rfl, by decide⟩

/-- C9 amended: for every page, a successful rendering begins with a newline
and four spaces followed by the DOCTYPE declaration (`"\n    <!DOCTYPE html>"`);
the first non-whitespace characters are the DOCTYPE declaration. -/
theorem C9_output_begins_doctype (p : LandingPageData) (s : String)
    (h : generate_html_export p = .ok s) :
    strStarts s "\n    <!DOCTYPE html>" = true := by
  unfold generate_html_export at h
  cases hc : componentsHtmlGo "" p.components with
  | error e => rw [hc] at h; cases h
  | ok ch =>
    rw [hc] at h
    injection h with h
    subst h
    unfold html_template
    repeat
      first
      | apply strStarts_append_left
    decide

theorem C9_output_begins_doctype_witness :
    strStarts (renderOut demoPage0) "\n    <!DOCTYPE html>" = true :=
  C9_output_begins_doctype demoPage0 (renderOut demoPage0) rfl

theorem pyReplaceGo_single (a b : Char) (fuel : Nat) (l : List Char)
    (hf : l.length ≤ fuel) :
    pyReplaceGo [a] [b] fuel l = l.map (fun ch => if ch = a then b else ch) := by
  induction fuel generalizing l with
  | zero =>
    cases l with
    | nil => rfl
    | cons c cs => simp at hf
  | succ fuel ih =>
    cases l with
    | nil => rfl
    | cons c cs =>
      rw [pyReplaceGo]
      simp only [List.length_cons, Nat.succ_le_succ_iff] at hf
      by_cases h : a = c
      · subst h
        simp [chStarts, ih cs hf]
      · simp [chStarts, h, Ne.symm h, ih cs hf]

/-- C10: export and FTP publishing name the file identically, by replacing
every space of the title with an underscore, appending `.html`, and leaving
every other character of the title verbatim at its position. -/
theorem C10_filename_derivation (t : String) :
    export_filename t = ftp_filename t ∧
    ∃ u : String, export_filename t = u ++ ".html" ∧
      u.data = t.data.map (fun ch => if ch = ' ' then '_' else ch) := by
  refine ⟨rfl, pyReplace t " " "_", rfl, ?_⟩
  show pyReplaceGo " ".data "_".data t.data.length t.data = _
  have h1 : " ".data = [' '] := rfl
  have h2 : "_".data = ['_'] := rfl
  rw [h1, h2, pyReplaceGo_single _ _ _ _ (Nat.le_refl _)]

theorem C10_filename_derivation_witness :
    export_filename "My Landing Page" = "My_Landing_Page.html" ∧
    export_filename "My Landing Page" = ftp_filename "My Landing Page" :=
  ⟨by decide, (C10_filename_derivation "My Landing Page").1⟩


theorem findOne_some_id (store : List LandingPageData) (pid : String)
    (p : LandingPageData) (h : findOne store pid = some p) : p.id = pid := by
  induction store with
  | nil => simp [findOne] at h
  | cons d ds ih =>
    unfold findOne at h
    by_cases hd : d.id = pid
    · simp only [beq_iff_eq, if_pos hd, Option.some.injEq] at h
      rw [← h]; exact hd
    · simp only [beq_iff_eq, if_neg hd] at h
      exact ih h

theorem update_landing_page_store (store : List LandingPageData) (pid : String)
    (u : PageUpdate) (now : Nat) :
    (update_landing_page store pid u now).1 =
      updateOne store (fun d => d.id == pid)
        (fun d => applySet d { u with updated_at := some now }) := by
  simp only [update_landing_page]
  split <;> rfl

/-- A well-formed text component used by several witnesses. -/
def cSimple : ComponentData :=
  { id := "c1", type := "text", content := [], position := [("x", 0), ("y", 0)],
    style := [] }

/-- A concrete FTP request. -/
def ftpReqDemo : FTPUploadRequest :=
  { page_id := "p1", ftp_host := "ftp.example.com", ftp_username := "u",
    ftp_password := "pw" }

/-- A concrete email request (default format `html`). -/
def emailReqDemo : EmailRequest :=
  { page_id := "p1", to_email := "a@b.c", subject := "s", message := "m" }

/-- C1 counterexample: with a page id absent from the store, the component-add
endpoint answers with its unconditional success message instead of a 404, and
the FTP endpoint converts its own internal 404 into a 500 (the `except
Exception` clause catches the `HTTPException`).  This is a concrete input on
which the claimed uniform 404 behaviour fails. -/
theorem C1_counterexample :
    (add_component [] "p1" cSimple 0).2 = .ok "Component added successfully" ∧
    ftp_upload_page [] "p1" ftpReqDemo none =
      .error (.httpException 500 "FTP upload failed: 404: Landing page not found") :=
  ⟨rfl, rfl⟩

/-- C1 amended: with a page id absent from the store, PUT, DELETE and export
answer 404 with detail "Landing page not found"; the component add/update/
remove endpoints answer 200 with their success messages without checking
existence; and the ftp-upload and email endpoints catch their internal 404
and answer 500 with the stringified 404 embedded in the detail. -/
theorem C1_absent_page_responses (store : List LandingPageData) (pid : String)
    (u : PageUpdate) (c : ComponentData) (cid : String) (now : Nat)
    (fd : FTPUploadRequest) (fexc : Option String) (ed : EmailRequest)
    (furl : String) (h : findOne store pid = none) :
    (update_landing_page store pid u now).2 =
      .error (.httpException 404 "Landing page not found") ∧
    (delete_landing_page store pid).2 =
      .error (.httpException 404 "Landing page not found") ∧
    export_landing_page store pid =
      .error (.httpException 404 "Landing page not found") ∧
    (add_component store pid c now).2 = .ok "Component added successfully" ∧
    (update_component store pid cid c now).2 = .ok "Component updated successfully" ∧
    (delete_component store pid cid now).2 = .ok "Component deleted successfully" ∧
    ftp_upload_page store pid fd fexc =
      .error (.httpException 500 "FTP upload failed: 404: Landing page not found") ∧
    email_landing_page store pid ed furl =
      .error (.httpException 500 "Email sending failed: 404: Landing page not found") := by
  have hupd : updateOne store (fun d => d.id == pid)
      (fun d => applySet d { u with updated_at := some now }) = store :=
    findOne_none_updateOne _ _ _ _ (fun d hd => beq_iff_eq.mp hd) h
  have hdel : deleteOne store pid = (store, 0) :=
    deleteOne_of_findOne_none _ _ h
  refine ⟨?_, ?_, ?_, rfl, rfl, rfl, ?_, ?_⟩
  · simp only [update_landing_page]
    rw [hupd, h]
  · simp only [delete_landing_page]
    rw [hdel]
    rfl
  · simp only [export_landing_page]
    rw [h]
  · have hbody : ftp_upload_body store pid fd fexc =
        .error (.httpException 404 "Landing page not found") := by
      simp only [ftp_upload_body]
      rw [h]
    simp only [ftp_upload_page]
    rw [hbody]
    rfl
  · have hbody : email_body store pid ed furl =
        .error (.httpException 404 "Landing page not found") := by
      simp only [email_body]
      rw [h]
    simp only [email_landing_page]
    rw [hbody]
    rfl

theorem C1_absent_page_responses_witness :
    (update_landing_page [] "p1" {} 3).2 =
      .error (.httpException 404 "Landing page not found") :=
  (C1_absent_page_responses [] "p1" {} cSimple "c9" 3 ftpReqDemo none
    emailReqDemo "http://localhost:3000" rfl).1

/-- A text component whose `position` dict is empty. -/
def badPosPage : LandingPageData :=
  { id := "pb", title := "B",
    components := [{ id := "b1", type := "text", content := [], position := [],
                     style := [] }] }

/-- C2 counterexample: the claim says every field access in every rendering
rule falls back to a default, but `position[\x27x\x27]`/`position[\x27y\x27]` are
accessed with no default (server.py lines 428-429): a component whose
`position` dict is empty makes `generate_html_export` raise a `KeyError`. -/
theorem C2_counterexample :
    generate_html_export badPosPage = .error (.keyError "x") := rfl

/-- C2 amended: the renderer terminates without raising provided every
component position carries both `x` and `y`, and every `livechat` component
carries a string `provider` (or none); all `content`/`style` lookups fall
back to defaults, so no other Page value can make it raise. -/
theorem C2_render_total_when_wellformed (p : LandingPageData)
    (h : ∀ c ∈ p.components, posOk c = true ∧ provOk c = true) :
    ∃ s, generate_html_export p = .ok s := by
  obtain ⟨s, hs⟩ := componentsHtmlGo_ok p.components h ""
  refine ⟨html_template p s, ?_⟩
  unfold generate_html_export
  rw [hs]

/-- A well-formed `livechat` component. -/
def liveComp : ComponentData :=
  { id := "l1", type := "livechat",
    content := [("provider", PyVal.vstr "intercom")],
    position := [("x", 3), ("y", 4)], style := [] }

/-- A page exercising both a `livechat` and a `text` component. -/
def livePage : LandingPageData :=
  { id := "pl", title := "L", components := [liveComp, cSimple] }

theorem C2_render_total_when_wellformed_witness :
    ∃ s, generate_html_export livePage = .ok s :=
  C2_render_total_when_wellformed livePage (by decide)


/-- A component with id "a". -/
def cA : ComponentData :=
  { id := "a", type := "text", content := [], position := [("x", 0), ("y", 0)],
    style := [] }

/-- A different component that reuses the id "a". -/
def cA2 : ComponentData :=
  { id := "a", type := "button", content := [], position := [("x", 1), ("y", 1)],
    style := [] }

/-- A component with the fresh id "b". -/
def cB : ComponentData :=
  { id := "b", type := "button", content := [], position := [("x", 2), ("y", 2)],
    style := [] }

/-- A stored page already holding the component `cA`. -/
def pWithA : LandingPageData := { id := "p1", title := "T", components := [cA] }

/-- C5 counterexample: adding `cA2` (which reuses the id "a") to a page that
already holds `cA` and then removing by id "a" empties the list -- `$pull`
removes every element with the id, so the pre-add component `cA` is lost and
the round-trip fails. -/
theorem C5_counterexample :
    (findOne (delete_component (add_component [pWithA] "p1" cA2 1).1 "p1" "a" 2).1
        "p1").map (fun d => d.components) = some [] ∧
    pWithA.components ≠ [] :=
  ⟨rfl, by decide⟩

/-- C5 amended: when no component of the page already carries the added
component's id, adding it and then removing by its id restores the
components list exactly (the round-trip holds only under that freshness
assumption, since `$pull` deletes every id match). -/
theorem C5_add_remove_roundtrip (store : List LandingPageData) (pid : String)
    (p : LandingPageData) (c : ComponentData) (t1 t2 : Nat)
    (hfind : findOne store pid = some p)
    (hfresh : ∀ k ∈ p.components, k.id ≠ c.id) :
    (findOne (delete_component (add_component store pid c t1).1 pid c.id t2).1
        pid).map (fun d => d.components) = some p.components := by
  have hpid := findOne_some_id _ _ _ hfind
  have h1 : findOne (add_component store pid c t1).1 pid = some (addTransform c t1 p) :=
    findOne_updateOne _ _ _ _ _ hfind (beq_iff_eq.mpr hpid)
      (fun d hd => beq_iff_eq.mp hd) rfl
  have h2 : findOne (delete_component (add_component store pid c t1).1 pid c.id t2).1 pid
      = some (pullTransform c.id t2 (addTransform c t1 p)) :=
    findOne_updateOne _ _ _ _ _ h1 (beq_iff_eq.mpr hpid)
      (fun d hd => beq_iff_eq.mp hd) rfl
  rw [h2]
  have hlist : (p.components ++ [c]).filter (fun k => !(k.id == c.id)) = p.components := by
    rw [List.filter_append]
    have hc : [c].filter (fun k => !(k.id == c.id)) = [] := by simp
    have hrest : p.components.filter (fun k => !(k.id == c.id)) = p.components :=
      List.filter_eq_self.mpr (fun k hk => by simp [hfresh k hk])
    rw [hc, hrest, List.append_nil]
  show some ((p.components ++ [c]).filter (fun k => !(k.id == c.id))) = some p.components
  rw [hlist]

theorem C5_add_remove_roundtrip_witness :
    (findOne (delete_component (add_component [pWithA] "p1" cB 1).1 "p1" cB.id 2).1
        "p1").map (fun d => d.components) = some pWithA.components :=
  C5_add_remove_roundtrip [pWithA] "p1" pWithA cB 1 2 rfl (by decide)

/-- A page stored under id "p1". -/
def pDemo : LandingPageData := { id := "p1", title := "Demo" }

/-- A PUT body that supplies the `id` field. -/
def uEvil : PageUpdate := { id := some "evil" }

/-- C7 counterexample: `PUT /pages/p1` with body `{"id": "evil"}` is `$set`
verbatim, so the stored document's id becomes "evil" -- the claim that no
client-supplied field set can change the stored id is false.  (The re-read
then misses the renamed document and the handler reports 404, leaving the
renamed page behind.) -/
theorem C7_counterexample :
    ((update_landing_page [pDemo] "p1" uEvil 5).1).map (fun d => d.id) = ["evil"] ∧
    (update_landing_page [pDemo] "p1" uEvil 5).2 =
      .error (.httpException 404 "Landing page not found") :=
  ⟨rfl, rfl⟩

/-- C7 amended: the stored ids are unchanged by PUT whenever the client field
set does not include `id`, and unconditionally by component
add/update/remove; only a PUT body containing `id` can rename a page. -/
theorem C7_page_id_immutable (store : List LandingPageData) (pid : String)
    (u : PageUpdate) (c : ComponentData) (cid : String) (now : Nat)
    (h : u.id = none) :
    ((update_landing_page store pid u now).1).map (fun d => d.id) =
      store.map (fun d => d.id) ∧
    ((add_component store pid c now).1).map (fun d => d.id) =
      store.map (fun d => d.id) ∧
    ((update_component store pid cid c now).1).map (fun d => d.id) =
      store.map (fun d => d.id) ∧
    ((delete_component store pid cid now).1).map (fun d => d.id) =
      store.map (fun d => d.id) := by
  refine ⟨?_, ?_, ?_, ?_⟩
  · rw [update_landing_page_store]
    exact updateOne_map_id _ _ _ (fun d => by simp [applySet, h])
  · exact updateOne_map_id _ _ _ (fun d => rfl)
  · exact updateOne_map_id _ _ _ (fun d => rfl)
  · exact updateOne_map_id _ _ _ (fun d => rfl)

theorem C7_page_id_immutable_witness :
    ((update_landing_page [pDemo] "p1" {} 7).1).map (fun d => d.id) = ["p1"] :=
  ((C7_page_id_immutable [pDemo] "p1" {} cSimple "x" 7 rfl).1).trans rfl

/-- C8: every mutation of a stored page (PUT field update, component add,
component update, component remove) sets `updated_at` to the current clock
value `now`; under the clock monotonicity assumption `p.updated_at ≤ now`
the refreshed value is ≥ the previous one, even when nothing else changed.
For PUT this holds even when the client supplies an `updated_at` field,
since the handler overwrites it (server.py line 134). -/
theorem C8_updated_at_refreshed (store : List LandingPageData) (pid : String)
    (p : LandingPageData) (u : PageUpdate) (c : ComponentData) (cid : String)
    (now : Nat) (hfind : findOne store pid = some p)
    (hclock : p.updated_at ≤ now)
    (hcid : p.components.any (fun k => k.id == cid) = true) :
    ((applySet p { u with updated_at := some now }).updated_at = now ∧
      p.updated_at ≤ (applySet p { u with updated_at := some now }).updated_at) ∧
    (findOne (add_component store pid c now).1 pid = some (addTransform c now p) ∧
      (addTransform c now p).updated_at = now ∧
      p.updated_at ≤ (addTransform c now p).updated_at) ∧
    (findOne (update_component store pid cid c now).1 pid =
        some (updTransform cid c now p) ∧
      (updTransform cid c now p).updated_at = now ∧
      p.updated_at ≤ (updTransform cid c now p).updated_at) ∧
    (findOne (delete_component store pid cid now).1 pid =
        some (pullTransform cid now p) ∧
      (pullTransform cid now p).updated_at = now ∧
      p.updated_at ≤ (pullTransform cid now p).updated_at) := by
  have hpid := findOne_some_id _ _ _ hfind
  refine ⟨⟨rfl, ?_⟩, ⟨?_, rfl, hclock⟩, ⟨?_, rfl, hclock⟩, ⟨?_, rfl, hclock⟩⟩
  · show p.updated_at ≤ now
    exact hclock
  · exact findOne_updateOne _ _ _ _ _ hfind (beq_iff_eq.mpr hpid)
      (fun d hd => beq_iff_eq.mp hd) rfl
  · exact findOne_updateOne _ _ _ _ _ hfind
      (by simp only [Bool.and_eq_true]; exact ⟨beq_iff_eq.mpr hpid, hcid⟩)
      (fun d hd => by
        simp only [Bool.and_eq_true] at hd
        exact beq_iff_eq.mp hd.1) rfl
  · exact findOne_updateOne _ _ _ _ _ hfind (beq_iff_eq.mpr hpid)
      (fun d hd => beq_iff_eq.mp hd) rfl

theorem C8_updated_at_refreshed_witness :
    (addTransform cB 9 pWithA).updated_at = 9 :=
  (C8_updated_at_refreshed [pWithA] "p1" pWithA {} cB "a" 9 rfl (by decide)
    (by decide)).2.1.2.1


/-- An unrecognized-type component whose position dict is empty. -/
def mysteryBadPage : LandingPageData :=
  { id := "pm", title := "M",
    components := [{ id := "m", type := "carousel", content := [],
                     position := [], style := [] }] }

/-- C4 counterexample: the claim says an unrecognized component type never
raises, for every Page; but the `component_style` f-string is evaluated for
every component before the type dispatch, so an unrecognized component with
an empty `position` dict makes the renderer raise a `KeyError` -- while the
same page without that component renders fine. -/
theorem C4_counterexample :
    generate_html_export mysteryBadPage = .error (.keyError "x") ∧
    generate_html_export { mysteryBadPage with components := [] } =
      .ok (html_template { mysteryBadPage with components := [] } "") :=
  ⟨rfl, rfl⟩

/-- C4 amended: provided its position carries `x` and `y`, a component whose
type is none of text/button/chatbot/livechat contributes no fragment, raises
no error, and the whole rendered document equals the rendering of the page
with that component removed (all other fragments unchanged). -/
theorem C4_unknown_type_skipped (c : ComponentData) (p : LandingPageData)
    (l1 l2 : List ComponentData) (hpos : posOk c = true)
    (ht : c.type ≠ "text") (hb : c.type ≠ "button")
    (hcb : c.type ≠ "chatbot") (hl : c.type ≠ "livechat")
    (hcomp : p.components = l1 ++ c :: l2) :
    renderComponent c = .ok "" ∧
    generate_html_export p =
      generate_html_export { p with components := l1 ++ l2 } := by
  have hrc : renderComponent c = .ok "" := by
    unfold posOk at hpos
    simp only [Bool.and_eq_true, Option.isSome_iff_exists] at hpos
    obtain ⟨⟨x, hx⟩, ⟨y, hy⟩⟩ := hpos
    unfold renderComponent
    rw [hx, hy]
    simp [ht, hb, hcb, hl]
  refine ⟨hrc, ?_⟩
  unfold generate_html_export
  rw [hcomp]
  have hx : ({ p with components := l1 ++ l2 } : LandingPageData).components
      = l1 ++ l2 := rfl
  rw [hx, componentsHtmlGo_skip c hrc l1 l2 ""]
  cases componentsHtmlGo "" (l1 ++ l2) with
  | error e => rfl
  | ok ch => rfl

/-- An unrecognized-type component with a well-formed position. -/
def mysteryGood : ComponentData :=
  { id := "m2", type := "carousel", content := [],
    position := [("x", 1), ("y", 2)], style := [] }

/-- A page holding a text component followed by an unrecognized component. -/
def pMy : LandingPageData :=
  { id := "py", title := "Y", components := [cSimple, mysteryGood] }

theorem C4_unknown_type_skipped_witness :
    renderComponent mysteryGood = .ok "" ∧
    generate_html_export pMy =
      generate_html_export { pMy with components := [cSimple] ++ [] } :=
  C4_unknown_type_skipped mysteryGood pMy [cSimple] [] (by decide)
    (by decide) (by decide) (by decide) (by decide) rfl

/-- The text component of the spec scenario: content
`\x7btext:"Hi", tag:"h1"\x7d`, position `\x7bx:10, y:20\x7d`, style `\x7bcolor:"#fff"\x7d`. -/
def c6comp : ComponentData :=
  { id := "t1", type := "text",
    content := [("text", PyVal.vstr "Hi"), ("tag", PyVal.vstr "h1")],
    position := [("x", 10), ("y", 20)],
    style := [("color", PyVal.vstr "#fff")] }

/-- The page of the spec scenario, holding only `c6comp`. -/
def c6page : LandingPageData :=
  { id := "p6", title := "Demo", background_color := "#1a1a2e",
    components := [c6comp] }

/-- A text component with every content/style field absent. -/
def c6bare : ComponentData :=
  { id := "t2", type := "text", content := [],
    position := [("x", 0), ("y", 0)], style := [] }

/-- C6 counterexample: the component position is a `Dict[str, float]`, so
`x = 10` is stored as the float `10.0` and the fragment reads
`left: 10.0px`; the literal text `left: 10px` appears nowhere in the output,
refuting the claimed `left: 10px` styling as stated. -/
theorem C6_counterexample :
    generate_html_export c6page = .ok (renderOut c6page) ∧
    strContains (renderOut c6page) "left: 10px" = false :=
  ⟨rfl, by decide⟩

/-- C6 amended: the scenario export contains an `<h1` fragment whose body is
exactly `Hi`, styled `left: 10.0px` / `top: 20.0px` (Python `str()` of the
float positions); and a text component with all optional fields absent
renders with tag `p`, `color: #ffffff`, `font-size: 16px` and an empty text
body. -/
theorem C6_text_scenario :
    (strContains (renderOut c6page) "<h1" = true ∧
     strContains (renderOut c6page) ">\n                Hi\n            </h1>" = true ∧
     strContains (renderOut c6page) "left: 10.0px" = true ∧
     strContains (renderOut c6page) "top: 20.0px" = true) ∧
    (renderComponent c6bare =
       .ok (text_fragment (component_style_str 0 0 c6bare) c6bare) ∧
     strContains (text_fragment (component_style_str 0 0 c6bare) c6bare) "<p" = true ∧
     strContains (text_fragment (component_style_str 0 0 c6bare) c6bare)
       "color: #ffffff" = true ∧
     strContains (text_fragment (component_style_str 0 0 c6bare) c6bare)
       "font-size: 16px" = true ∧
     strContains (text_fragment (component_style_str 0 0 c6bare) c6bare)
       ">\n                \n            </p>" = true) :=
  ⟨⟨by decide, by decide, by decide, by decide⟩,
   ⟨rfl, by decide, by decide, by decide, by decide⟩⟩


end OnePager
